import Mathlib

/-!
Shallow embedding of modelvshuman/model_evaluator.py: the ModelEvaluator and
MetricExtractor orchestrators, the two backend evaluator functions, and the
best-effort cache eviction helper.  External library calls (forward passes,
softmax, tensor conversion, decision mappings) are modelled as opaque
functions carried by the Model and Dataset records; batch payloads are
abstracted to numeric ids.  Python exceptions are modelled with an explicit
error component threaded through each function, so that side effects that
occurred before an exception are retained, as in the source.
-/

namespace ModelVsHuman

/-- Python exception values raised by the orchestration code. -/
inductive PyErr
  | keyError (k : String)
  | nameError (msg : String)
  | valueError (msg : String)
  deriving DecidableEq

/-- One recorded metric.update call.  The evaluators call
update(predictions, batch_targets, paths); the extractor calls
update(predictions, categories, batch_targets, paths, layer). -/
inductive UpdRec
  | eval (predictions targets paths : Nat)
  | extract (predictions categories targets paths layer : Nat)
  deriving DecidableEq

/-- The layer argument carried by an update record (0 for evaluator records). -/
def UpdRec.layerOf : UpdRec → Nat
  | .eval _ _ _ => 0
  | .extract _ _ _ _ l => l

/-- Which metric class an accumulator is an instance of. -/
inductive MetricKind
  | accuracy
  | reciprocalRank
  | probability
  | entropy
  | other (name : String)
  deriving DecidableEq

/-- A metric accumulator: its class plus the list of update calls it has
received since the last reset (its running state). -/
structure Metric where
  kind : MetricKind
  updates : List UpdRec
  deriving DecidableEq

/-- metric.reset(): clear the running state. -/
def Metric.reset (m : Metric) : Metric := { m with updates := [] }

/-- metric.update(...): append one update record. -/
def Metric.update (m : Metric) (r : UpdRec) : Metric :=
  { m with updates := m.updates ++ [r] }

/-- One batch produced by a dataset loader: (images, target, paths), with a
flag recording whether the target is a torch.Tensor (the isinstance check). -/
structure Batch where
  images : Nat
  target : Nat
  paths : Nat
  targetIsTensor : Bool
  deriving DecidableEq

/-- A dataset loader, possibly wrapped in the ToTensorflow adapter.  The
adapter changes the tensor-container convention, not the batch stream. -/
inductive Loader
  | base (batches : List Batch)
  | toTF (inner : Loader)

/-- The stream of batches a loader yields when iterated. -/
def Loader.batches : Loader → List Batch
  | .base bs => bs
  | .toTF l => l.batches

/-- The dataset's decision_mapping callable.  In evaluation mode it returns
hard decisions; after being re-initialised with return_raw_probs=True (done
by the extractor) it returns a (probabilities, categories) pair. -/
structure DecisionMapping where
  returnRawProbs : Bool
  mapDecisions : Nat → Nat
  mapRaw : Nat → Nat × Nat

structure Dataset where
  name : String
  loader : Loader
  decisionMapping : DecisionMapping
  metrics : List Metric

/-- A loaded model: forward_batch, softmax, to_numpy, and (for the
extractor) model.forward_intermediates and model.forward_head. -/
structure Model where
  forwardBatch : Nat → Nat
  softmaxF : Nat → Nat
  toNumpy : Nat → Nat
  forwardIntermediates : Nat → Nat × List Nat
  forwardHead : Nat → Nat

/-- kwargs: the options mapping passed through the run. -/
abbrev Options := List (String × Bool)

/-- One row written by ResultPrinter.print_batch_to_csv. -/
structure BatchRow where
  modelName : String
  datasetName : String
  objectResponse : Nat
  batchTargets : Nat
  paths : Nat
  deriving DecidableEq

/-- One row written by print_performance_to_csv / print_metrics_to_csv. -/
structure PerfRow where
  modelName : String
  datasetName : String
  metricKind : MetricKind
  deriving DecidableEq

/-- MAX_NUM_MODELS_IN_CACHE (model_evaluator.py line 20). -/
def MAX_NUM_MODELS_IN_CACHE : Nat := 3

/-- Body of one iteration of the batch loop of
ModelEvaluator._pytorch_evaluator (lines 49-65): forward pass, softmax,
tensor-to-numpy target conversion, decision mapping, one update per metric,
then the kwargs["print_predictions"] lookup (a missing key raises KeyError
after the updates of that batch). -/
def evalStepPy (modelName : String) (model : Model) (dm : DecisionMapping)
    (dsName : String) (opts : Options) (b : Batch) (metrics : List Metric) :
    List Metric × List BatchRow × Option PyErr :=
  let logits := model.forwardBatch b.images
  let softmaxOutput := model.softmaxF logits
  let batchTargets := if b.targetIsTensor then model.toNumpy b.target else b.target
  let predictions := dm.mapDecisions softmaxOutput
  let metrics2 := metrics.map (fun mt => mt.update (.eval predictions batchTargets b.paths))
  match List.lookup "print_predictions" opts with
  | none => (metrics2, [], some (.keyError "print_predictions"))
  | some pp =>
    (metrics2,
     if pp then [{ modelName := modelName, datasetName := dsName,
                   objectResponse := predictions, batchTargets := batchTargets,
                   paths := b.paths }] else [],
     none)

/-- The batch loop of _pytorch_evaluator; an exception aborts the loop but
the updates already performed are kept. -/
def evalLoopPy (modelName : String) (model : Model) (dm : DecisionMapping)
    (dsName : String) (opts : Options) :
    List Batch → List Metric → List Metric × List BatchRow × Option PyErr
  | [], metrics => (metrics, [], none)
  | b :: rest, metrics =>
    let r := evalStepPy modelName model dm dsName opts b metrics
    match r.2.2 with
    | some e => (r.1, r.2.1, some e)
    | none =>
      let r2 := evalLoopPy modelName model dm dsName opts rest r.1
      (r2.1, r.2.1 ++ r2.2.1, r2.2.2)

/-- ModelEvaluator._pytorch_evaluator (lines 29-65): reset every metric of
the dataset, then iterate the loader.  Mutates the dataset's metrics in
place; returns the mutated dataset, the CSV rows written, and the escaped
exception if any. -/
def pytorchEvaluator (modelName : String) (model : Model) (dataset : Dataset)
    (opts : Options) : Dataset × List BatchRow × Option PyErr :=
  let r := evalLoopPy modelName model dataset.decisionMapping dataset.name opts
      dataset.loader.batches (dataset.metrics.map Metric.reset)
  ({ dataset with metrics := r.1 }, r.2.1, r.2.2)

/-- Body of one iteration of the batch loop of
ModelEvaluator._tensorflow_evaluator (lines 88-99): no device move and no
to_numpy conversion, otherwise the same shape as the pytorch variant. -/
def evalStepTf (modelName : String) (model : Model) (dm : DecisionMapping)
    (dsName : String) (opts : Options) (b : Batch) (metrics : List Metric) :
    List Metric × List BatchRow × Option PyErr :=
  let logits := model.forwardBatch b.images
  let softmaxOutput := model.softmaxF logits
  let predictions := dm.mapDecisions softmaxOutput
  let metrics2 := metrics.map (fun mt => mt.update (.eval predictions b.target b.paths))
  match List.lookup "print_predictions" opts with
  | none => (metrics2, [], some (.keyError "print_predictions"))
  | some pp =>
    (metrics2,
     if pp then [{ modelName := modelName, datasetName := dsName,
                   objectResponse := predictions, batchTargets := b.target,
                   paths := b.paths }] else [],
     none)

/-- The batch loop of _tensorflow_evaluator. -/
def evalLoopTf (modelName : String) (model : Model) (dm : DecisionMapping)
    (dsName : String) (opts : Options) :
    List Batch → List Metric → List Metric × List BatchRow × Option PyErr
  | [], metrics => (metrics, [], none)
  | b :: rest, metrics =>
    let r := evalStepTf modelName model dm dsName opts b metrics
    match r.2.2 with
    | some e => (r.1, r.2.1, some e)
    | none =>
      let r2 := evalLoopTf modelName model dm dsName opts rest r.1
      (r2.1, r.2.1 ++ r2.2.1, r2.2.2)

/-- ModelEvaluator._tensorflow_evaluator (lines 67-99): reset every metric,
then iterate the loader. -/
def tensorflowEvaluator (modelName : String) (model : Model) (dataset : Dataset)
    (opts : Options) : Dataset × List BatchRow × Option PyErr :=
  let r := evalLoopTf modelName model dataset.decisionMapping dataset.name opts
      dataset.loader.batches (dataset.metrics.map Metric.reset)
  ({ dataset with metrics := r.1 }, r.2.1, r.2.2)

/-- The value ModelEvaluator._get_evaluator returns: one of the two bound
evaluator methods, defunctionalised to a tag dispatched on below. -/
inductive EvaluatorChoice
  | tensorflowE
  | pytorchE
  deriving DecidableEq

/-- ModelEvaluator._get_evaluator (lines 116-122). -/
def getEvaluator (framework : String) : Except PyErr EvaluatorChoice :=
  if framework = "tensorflow" then .ok .tensorflowE
  else if framework = "pytorch" then .ok .pytorchE
  else .error (.nameError "Unsupported evaluator")

/-- ModelEvaluator._to_tensorflow (lines 108-114): deep-copies the dataset
list, then wraps each copy's loader in the ToTensorflow adapter.  The deep
copy is why the wrapping (and every later in-place mutation of the copies)
leaves the shared dataset objects untouched; here that is reflected by the
caller keeping its own list when the backend is tensorflow. -/
def toTensorflow (datasets : List Dataset) : List Dataset :=
  datasets.map (fun ds => { ds with loader := Loader.toTF ds.loader })

/-- Observable state of a run: the shared dataset list _datasets (whose
metric objects are mutated in place by the pytorch path), the CSV rows
written so far, and the log of cache-eviction attempts as
(index of the finished model in the run, model name). -/
structure RunState where
  datasets : List Dataset
  batchCsv : List BatchRow
  perfCsv : List PerfRow
  evictions : List (Nat × String)

/-- The per-dataset loop of ModelEvaluator.__call__ (lines 161-179) for one
model: run the selected evaluator on each dataset, then the
kwargs["print_predictions"] check guarding print_performance_to_csv.
The updated dataset objects replace the originals in the returned list
(in-place mutation); an exception stops the loop. -/
def runDatasetsEval (modelName : String) (model : Model) (choice : EvaluatorChoice)
    (opts : Options) : List Dataset → List Dataset × List BatchRow × List PerfRow × Option PyErr
  | [] => ([], [], [], none)
  | ds :: rest =>
    let r :=
      match choice with
      | .pytorchE => pytorchEvaluator modelName model ds opts
      | .tensorflowE => tensorflowEvaluator modelName model ds opts
    match r.2.2 with
    | some e => (r.1 :: rest, r.2.1, [], some e)
    | none =>
      match List.lookup "print_predictions" opts with
      | none => (r.1 :: rest, r.2.1, [], some (.keyError "print_predictions"))
      | some pp =>
        let perf := if pp then r.1.metrics.map
            (fun mt => { modelName := modelName, datasetName := ds.name,
                         metricKind := mt.kind : PerfRow }) else []
        let r2 := runDatasetsEval modelName model choice opts rest
        (r.1 :: r2.1, r.2.1 ++ r2.2.1, perf ++ r2.2.2.1, r2.2.2.2)

/-- One iteration of the model loop of ModelEvaluator.__call__
(lines 154-181): load the model, select the evaluator, convert the dataset
list for tensorflow (on deep copies, so the shared list is kept), run every
dataset, and finally attempt cache eviction whenever the total number of
models in the run reaches MAX_NUM_MODELS_IN_CACHE. -/
def evalModelStep (lm : String → Model × String) (opts : Options) (total idx : Nat)
    (mname : String) (st : RunState) : RunState × Option PyErr :=
  let mf := lm mname
  match getEvaluator mf.2 with
  | .error e => (st, some e)
  | .ok choice =>
    let cur := if mf.2 = "tensorflow" then toTensorflow st.datasets else st.datasets
    let r := runDatasetsEval mname mf.1 choice opts cur
    let shared := if mf.2 = "tensorflow" then st.datasets else r.1
    let st2 : RunState := { datasets := shared, batchCsv := st.batchCsv ++ r.2.1,
                            perfCsv := st.perfCsv ++ r.2.2.1, evictions := st.evictions }
    match r.2.2.2 with
    | some e => (st2, some e)
    | none =>
      if MAX_NUM_MODELS_IN_CACHE ≤ total then
        ({ st2 with evictions := st2.evictions ++ [(idx, mname)] }, none)
      else (st2, none)

/-- The model loop of ModelEvaluator.__call__; an exception aborts the run,
keeping the side effects performed so far. -/
def evalModelsLoop (lm : String → Model × String) (opts : Options) (total : Nat) :
    List (Nat × String) → RunState → RunState × Option PyErr
  | [], st => (st, none)
  | (idx, mname) :: rest, st =>
    let r := evalModelStep lm opts total idx mname st
    match r.2 with
    | some e => (r.1, some e)
    | none => evalModelsLoop lm opts total rest r.1

/-- ModelEvaluator.__call__ (lines 139-183): load all datasets once, then
run the model loop.  lm and ld stand for the external load_model and
load_dataset collaborators. -/
def evaluatorCall (lm : String → Model × String) (ld : String → Dataset)
    (models : List String) (datasetNames : List String) (opts : Options) :
    RunState × Option PyErr :=
  evalModelsLoop lm opts models.length models.enum
    { datasets := datasetNames.map ld, batchCsv := [], perfCsv := [], evictions := [] }

/-- The value MetricExtractor._get_extractor returns on success. -/
inductive ExtractorChoice
  | pytorchX
  deriving DecidableEq

/-- MetricExtractor._get_extractor (lines 258-264): tensorflow raises a
ValueError, pytorch returns the extractor, anything else raises NameError. -/
def getExtractor (framework : String) : Except PyErr ExtractorChoice :=
  if framework = "tensorflow" then .error (.valueError "Tensorflow is not supported")
  else if framework = "pytorch" then .ok .pytorchX
  else .error (.nameError "Unsupported extractor")

/-- The update record the extractor produces for one intermediate layer of
one batch (lines 227-244): forward_head on the layer's features, softmax,
tensor-to-numpy target conversion, raw decision mapping, layer index. -/
def extractRecord (model : Model) (dm : DecisionMapping) (b : Batch)
    (feat layer : Nat) : UpdRec :=
  let predictions0 := model.softmaxF (model.forwardHead feat)
  let batchTargets := if b.targetIsTensor then model.toNumpy b.target else b.target
  let pc := dm.mapRaw predictions0
  .extract pc.1 pc.2 batchTargets b.paths layer

/-- The per-layer loop of MetricExtractor._pytorch_extractor
(lines 220-244): enumerate(intermediates), updating every metric once per
layer with that layer's index. -/
def extractLayersLoop (model : Model) (dm : DecisionMapping) (b : Batch) :
    List Nat → Nat → List Metric → List Metric
  | [], _, metrics => metrics
  | feat :: rest, layer, metrics =>
    extractLayersLoop model dm b rest (layer + 1)
      (metrics.map (fun mt => mt.update (extractRecord model dm b feat layer)))

/-- The batch loop of _pytorch_extractor (lines 213-244): for each batch,
model.forward_intermediates yields the per-layer features iterated by the
layer loop.  (The tensor reshaping and concatenation of lines 222-226 are
opaque data plumbing inside the per-layer feature value.) -/
def extractBatchLoop (model : Model) (dm : DecisionMapping) :
    List Batch → List Metric → List Metric
  | [], metrics => metrics
  | b :: rest, metrics =>
    extractBatchLoop model dm rest
      (extractLayersLoop model dm b (model.forwardIntermediates b.images).2 0 metrics)

/-- MetricExtractor._pytorch_extractor (lines 190-249): re-initialises the
dataset's decision mapping with return_raw_probs=True, replaces the
dataset's metric list with the fixed trio [ReciprocalRank, Probability,
Entropy], then iterates the loader.  The print_predictions check of the
evaluator is commented out in this function, so it raises nothing. -/
def pytorchExtractor (_modelName : String) (model : Model) (dataset : Dataset)
    (_opts : Options) : Dataset × Option PyErr :=
  let dm := { dataset.decisionMapping with returnRawProbs := true }
  let ms0 : List Metric :=
    [{ kind := .reciprocalRank, updates := [] },
     { kind := .probability, updates := [] },
     { kind := .entropy, updates := [] }]
  let ms := extractBatchLoop model dm dataset.loader.batches ms0
  ({ dataset with decisionMapping := dm, metrics := ms }, none)

/-- The per-dataset loop of MetricExtractor.__call__ (lines 303-322): run
the extractor (the shared dataset objects are mutated in place; there is no
deep copy here), then the kwargs["print_predictions"] check guarding
print_metrics_to_csv. -/
def runDatasetsExtract (modelName : String) (model : Model) (opts : Options) :
    List Dataset → List Dataset × List PerfRow × Option PyErr
  | [] => ([], [], none)
  | ds :: rest =>
    let r := pytorchExtractor modelName model ds opts
    match r.2 with
    | some e => (r.1 :: rest, [], some e)
    | none =>
      match List.lookup "print_predictions" opts with
      | none => (r.1 :: rest, [], some (.keyError "print_predictions"))
      | some pp =>
        let perf := if pp then r.1.metrics.map
            (fun mt => { modelName := modelName, datasetName := ds.name,
                         metricKind := mt.kind : PerfRow }) else []
        let r2 := runDatasetsExtract modelName model opts rest
        (r.1 :: r2.1, perf ++ r2.2.1, r2.2.2)

/-- One iteration of the model loop of MetricExtractor.__call__
(lines 296-324): _get_extractor raises first for tensorflow (line 260), so
the later explicit tensorflow check of lines 300-301 is unreachable; it is
kept here for fidelity. -/
def extractModelStep (lm : String → Model × String) (opts : Options) (total idx : Nat)
    (mname : String) (st : RunState) : RunState × Option PyErr :=
  let mf := lm mname
  match getExtractor mf.2 with
  | .error e => (st, some e)
  | .ok _ =>
    if mf.2 = "tensorflow" then (st, some (.valueError "Tensorflow models not supported"))
    else
      let r := runDatasetsExtract mname mf.1 opts st.datasets
      let st2 : RunState := { st with datasets := r.1, perfCsv := st.perfCsv ++ r.2.1 }
      match r.2.2 with
      | some e => (st2, some e)
      | none =>
        if MAX_NUM_MODELS_IN_CACHE ≤ total then
          ({ st2 with evictions := st2.evictions ++ [(idx, mname)] }, none)
        else (st2, none)

/-- The model loop of MetricExtractor.__call__. -/
def extractModelsLoop (lm : String → Model × String) (opts : Options) (total : Nat) :
    List (Nat × String) → RunState → RunState × Option PyErr
  | [], st => (st, none)
  | (idx, mname) :: rest, st =>
    let r := extractModelStep lm opts total idx mname st
    match r.2 with
    | some e => (r.1, some e)
    | none => extractModelsLoop lm opts total rest r.1

/-- MetricExtractor.__call__ (lines 281-326). -/
def extractorCall (lm : String → Model × String) (ld : String → Dataset)
    (models : List String) (datasetNames : List String) (opts : Options) :
    RunState × Option PyErr :=
  extractModelsLoop lm opts models.length models.enum
    { datasets := datasetNames.map ld, batchCsv := [], perfCsv := [], evictions := [] }

/-- State of the fixed cache directory /root/.cache/torch/checkpoints/:
none when the directory is missing (os.listdir raises), otherwise the list
of file names it holds; failRemove lists the files for which os.remove
raises (e.g. a permission error or a race with another process). -/
structure CacheFS where
  cache : Option (List String)
  failRemove : List String
  deriving DecidableEq

/-- The local _format_name helper (lines 126-127):
name.lower().replace("-", "_").  Both operations act per character, since
the replaced pattern is the single character "-". -/
def formatName (s : String) : String :=
  String.mk (s.data.map (fun c => if c.toLower = '-' then '_' else c.toLower))

/-- The name test of line 134: the normalized file name starts with the
normalized model name. -/
def nameMatches (modelName dm : String) : Bool :=
  (formatName modelName).data.isPrefixOf (formatName dm).data

/-- The deletion loop of lines 133-135 over the os.listdir snapshot,
removing each matching file from the directory; the Bool records whether an
os.remove call raised (which aborts the loop with the file kept). -/
def evictLoop (modelName : String) (failRemove : List String) :
    List String → List String → List String × Bool
  | [], cur => (cur, false)
  | dm :: rest, cur =>
    if nameMatches modelName dm then
      if dm ∈ failRemove then (cur, true)
      else evictLoop modelName failRemove rest (cur.erase dm)
    else evictLoop modelName failRemove rest cur

/-- The body of _remove_model_from_cache without its try/except
(lines 130-135); the Bool records whether an OS exception was raised. -/
def removeBody (framework modelName : String) (fs : CacheFS) : CacheFS × Bool :=
  if framework = "pytorch" then
    match fs.cache with
    | none => (fs, true)
    | some files =>
      let r := evictLoop modelName fs.failRemove files files
      ({ fs with cache := some r.1 }, r.2)
  else (fs, false)

/-- ModelEvaluator._remove_model_from_cache (lines 124-137), identical in
MetricExtractor (lines 266-279): the bare except clause suppresses every
exception of the body, keeping the deletions performed before it. -/
def removeModelFromCache (framework modelName : String) (fs : CacheFS) :
    CacheFS × Option PyErr :=
  ((removeBody framework modelName fs).1, none)

/-- No file of the cache directory matches the model name (vacuously true
when the directory is missing). -/
def noMatchingFile (modelName : String) (fs : CacheFS) : Prop :=
  ∀ f ∈ fs.cache.getD [], nameMatches modelName f = false

instance (modelName : String) (fs : CacheFS) : Decidable (noMatchingFile modelName fs) := by
  unfold noMatchingFile; infer_instance

/-- The update record one batch contributes in _pytorch_evaluator
(characterises the loop; identical for every metric of the dataset). -/
def evalRecordPy (model : Model) (dm : DecisionMapping) (b : Batch) : UpdRec :=
  .eval (dm.mapDecisions (model.softmaxF (model.forwardBatch b.images)))
        (if b.targetIsTensor then model.toNumpy b.target else b.target)
        b.paths

/-- The update record one batch contributes in _tensorflow_evaluator. -/
def evalRecordTf (model : Model) (dm : DecisionMapping) (b : Batch) : UpdRec :=
  .eval (dm.mapDecisions (model.softmaxF (model.forwardBatch b.images)))
        b.target b.paths

/-- The sequence of update records the extractor produces for the layers of
one batch, starting at the given layer index. -/
def extractRecs (model : Model) (dm : DecisionMapping) (b : Batch) :
    List Nat → Nat → List UpdRec
  | [], _ => []
  | f :: rest, layer =>
    extractRecord model dm b f layer :: extractRecs model dm b rest (layer + 1)

/-- Concrete fixtures instantiating the opaque collaborators, used by the
witness and counterexample instances below. -/
def batch0 : Batch := { images := 5, target := 7, paths := 11, targetIsTensor := false }

def dmap0 : DecisionMapping :=
  { returnRawProbs := false, mapDecisions := fun x => x + 1, mapRaw := fun x => (x, x + 2) }

def metric0 : Metric := { kind := .accuracy, updates := [] }

def ds0 : Dataset :=
  { name := "d1", loader := .base [batch0], decisionMapping := dmap0, metrics := [metric0] }

def mdl0 : Model :=
  { forwardBatch := fun x => x * 2, softmaxF := fun x => x + 3, toNumpy := fun x => x,
    forwardIntermediates := fun x => (x, [x, x + 1]), forwardHead := fun x => x + 5 }

def opts0 : Options := [("print_predictions", false)]

def lmPy : String → Model × String := fun _ => (mdl0, "pytorch")

def lmTf : String → Model × String := fun _ => (mdl0, "tensorflow")

def ld0 : String → Dataset := fun _ => ds0

def stA : RunState := { datasets := [ds0], batchCsv := [], perfCsv := [], evictions := [] }

/-- A three-model run (all pytorch): the run length meets
MAX_NUM_MODELS_IN_CACHE, so the source attempts eviction after every model. -/
def run3 : RunState × Option PyErr :=
  evaluatorCall lmPy ld0 ["m1", "m2", "m3"] ["d1"] opts0

def fsEmpty : CacheFS := { cache := none, failRemove := [] }

def fs1 : CacheFS := { cache := some ["resnet50_a.pth", "vgg-16.pth"], failRemove := [] }

/-! ## Helper lemmas -/

theorem evictLoop_no_match (mn : String) (fr : List String) :
    ∀ (l cur : List String), (∀ f ∈ l, nameMatches mn f = false) →
      evictLoop mn fr l cur = (cur, false) := by
  intro l
  induction l with
  | nil => intro cur _; rfl
  | cons d rest ih =>
    intro cur h
    have hd : nameMatches mn d = false := h d (by simp)
    have hrest : ∀ f ∈ rest, nameMatches mn f = false := fun f hf => h f (by simp [hf])
    simp [evictLoop, hd, ih cur hrest]

theorem evictLoop_skip (mn : String) (fr : List String) (d : String) :
    ∀ (l cur : List String), d ∉ l →
      evictLoop mn fr l (d :: cur)
        = (d :: (evictLoop mn fr l cur).1, (evictLoop mn fr l cur).2) := by
  intro l
  induction l with
  | nil => intro cur _; rfl
  | cons e rest ih =>
    intro cur hd
    have hde : d ≠ e := fun hh => hd (by simp [hh])
    have hdr : d ∉ rest := fun hh => hd (by simp [hh])
    by_cases hm : nameMatches mn e
    · by_cases hfr : e ∈ fr
      · simp [evictLoop, hm, hfr]
      · have herase : (d :: cur).erase e = d :: cur.erase e := by
          simp [List.erase_cons, hde]
        simp [evictLoop, hm, hfr, herase, ih (cur.erase e) hdr]
    · simp [evictLoop, hm, ih cur hdr]

theorem evictLoop_filter (mn : String) (fr : List String) :
    ∀ files : List String, files.Nodup →
      (∀ f ∈ files, nameMatches mn f = true → f ∉ fr) →
      evictLoop mn fr files files
        = (files.filter (fun f => ! nameMatches mn f), false) := by
  intro files
  induction files with
  | nil => intro _ _; rfl
  | cons d rest ih =>
    intro hnd hfr
    have hd : d ∉ rest := (List.nodup_cons.mp hnd).1
    have hrest : rest.Nodup := (List.nodup_cons.mp hnd).2
    have hfr2 : ∀ f ∈ rest, nameMatches mn f = true → f ∉ fr :=
      fun f hf => hfr f (by simp [hf])
    by_cases hm : nameMatches mn d
    · have hdfr : d ∉ fr := hfr d (by simp) hm
      have herase : (d :: rest).erase d = rest := by simp [List.erase_cons]
      simp [evictLoop, hm, hdfr, herase, ih hrest hfr2, List.filter_cons]
    · have hskip := evictLoop_skip mn fr d rest rest hd
      simp [evictLoop, hm, hskip, ih hrest hfr2, List.filter_cons]

theorem map_extend_nil (ms : List Metric) :
    ms.map (fun mt => { mt with updates := mt.updates ++ ([] : List UpdRec) }) = ms := by
  induction ms with
  | nil => rfl
  | cons m rest ih => simp [ih]

theorem map_reset_overwrite (ms : List Metric) (stale : Metric → List UpdRec) :
    ms.map (Metric.reset ∘ fun mt => { mt with updates := stale mt })
      = ms.map Metric.reset := by
  induction ms with
  | nil => rfl
  | cons m rest ih => simp [Metric.reset, Function.comp, ih]

theorem map_eq_replicate_of (ms : List Metric) (g : Metric → Nat) (n : Nat)
    (h : ∀ mt, g mt = n) : ms.map g = List.replicate ms.length n := by
  induction ms with
  | nil => rfl
  | cons m rest ih => simp [h, ih, List.replicate_succ]

theorem evalLoopPy_ok (mn : String) (model : Model) (dm : DecisionMapping)
    (dsn : String) (opts : Options) (pp : Bool)
    (h : List.lookup "print_predictions" opts = some pp) :
    ∀ (batches : List Batch) (metrics : List Metric),
      (evalLoopPy mn model dm dsn opts batches metrics).1
        = metrics.map (fun mt =>
            { mt with updates := mt.updates ++ batches.map (evalRecordPy model dm) }) ∧
      (evalLoopPy mn model dm dsn opts batches metrics).2.2 = none := by
  intro batches
  induction batches with
  | nil =>
    intro metrics
    exact ⟨(map_extend_nil metrics).symm, rfl⟩
  | cons b rest ih =>
    intro metrics
    have h1 : (evalStepPy mn model dm dsn opts b metrics).1
        = metrics.map (fun mt => mt.update (evalRecordPy model dm b)) := by
      simp [evalStepPy, h, evalRecordPy]
    have h2 : (evalStepPy mn model dm dsn opts b metrics).2.2 = none := by
      simp [evalStepPy, h]
    obtain ⟨ih1, ih2⟩ := ih (metrics.map (fun mt => mt.update (evalRecordPy model dm b)))
    have hfun : ((fun mt : Metric =>
            { mt with updates := mt.updates ++ rest.map (evalRecordPy model dm) }) ∘
          (fun mt : Metric => mt.update (evalRecordPy model dm b)))
        = fun mt : Metric =>
            { mt with updates := mt.updates ++ (b :: rest).map (evalRecordPy model dm) } := by
      funext mt
      simp [Metric.update, Function.comp, List.append_assoc]
    constructor
    · show (evalLoopPy mn model dm dsn opts (b :: rest) metrics).1 = _
      simp only [evalLoopPy, h2]
      rw [h1, ih1, List.map_map, hfun]
    · show (evalLoopPy mn model dm dsn opts (b :: rest) metrics).2.2 = none
      simp only [evalLoopPy, h2]
      rw [h1]
      exact ih2

theorem evalLoopTf_ok (mn : String) (model : Model) (dm : DecisionMapping)
    (dsn : String) (opts : Options) (pp : Bool)
    (h : List.lookup "print_predictions" opts = some pp) :
    ∀ (batches : List Batch) (metrics : List Metric),
      (evalLoopTf mn model dm dsn opts batches metrics).1
        = metrics.map (fun mt =>
            { mt with updates := mt.updates ++ batches.map (evalRecordTf model dm) }) ∧
      (evalLoopTf mn model dm dsn opts batches metrics).2.2 = none := by
  intro batches
  induction batches with
  | nil =>
    intro metrics
    exact ⟨(map_extend_nil metrics).symm, rfl⟩
  | cons b rest ih =>
    intro metrics
    have h1 : (evalStepTf mn model dm dsn opts b metrics).1
        = metrics.map (fun mt => mt.update (evalRecordTf model dm b)) := by
      simp [evalStepTf, h, evalRecordTf]
    have h2 : (evalStepTf mn model dm dsn opts b metrics).2.2 = none := by
      simp [evalStepTf, h]
    obtain ⟨ih1, ih2⟩ := ih (metrics.map (fun mt => mt.update (evalRecordTf model dm b)))
    have hfun : ((fun mt : Metric =>
            { mt with updates := mt.updates ++ rest.map (evalRecordTf model dm) }) ∘
          (fun mt : Metric => mt.update (evalRecordTf model dm b)))
        = fun mt : Metric =>
            { mt with updates := mt.updates ++ (b :: rest).map (evalRecordTf model dm) } := by
      funext mt
      simp [Metric.update, Function.comp, List.append_assoc]
    constructor
    · show (evalLoopTf mn model dm dsn opts (b :: rest) metrics).1 = _
      simp only [evalLoopTf, h2]
      rw [h1, ih1, List.map_map, hfun]
    · show (evalLoopTf mn model dm dsn opts (b :: rest) metrics).2.2 = none
      simp only [evalLoopTf, h2]
      rw [h1]
      exact ih2

/-! ## Claim theorems -/

/-- C6 counterexample: for the recognized backend tag "tensorflow",
MetricExtractor._get_extractor does not return the matching backend
evaluator without error: it raises a ValueError. -/
theorem getExtractorTensorflowErrs :
    getExtractor "tensorflow" = Except.error (PyErr.valueError "Tensorflow is not supported") ∧
    getExtractor "tensorflow" ≠ Except.ok ExtractorChoice.pytorchX := by
  constructor
  · rfl
  · intro h; cases h

/-- C6 (amended): for every backend tag that is neither "tensorflow" nor
"pytorch", both selector functions fail with a NameError; the evaluator
selector returns the matching backend evaluator for both recognized tags,
while the extractor selector returns the pytorch extractor for "pytorch"
and fails with a ValueError for "tensorflow". -/
theorem getEvaluatorDispatch (fw : String) (h1 : fw ≠ "tensorflow") (h2 : fw ≠ "pytorch") :
    (getEvaluator fw = Except.error (PyErr.nameError "Unsupported evaluator") ∧
     getExtractor fw = Except.error (PyErr.nameError "Unsupported extractor")) ∧
    getEvaluator "tensorflow" = Except.ok EvaluatorChoice.tensorflowE ∧
    getEvaluator "pytorch" = Except.ok EvaluatorChoice.pytorchE ∧
    getExtractor "pytorch" = Except.ok ExtractorChoice.pytorchX ∧
    getExtractor "tensorflow" = Except.error (PyErr.valueError "Tensorflow is not supported") := by
  refine ⟨⟨?_, ?_⟩, rfl, rfl, rfl, rfl⟩ <;> simp [getEvaluator, getExtractor, h1, h2]

/-- C6 witness: the dispatch theorem instantiated at the unrecognized
backend tag "caffe". -/
theorem getEvaluatorDispatch_witness :
    (getEvaluator "caffe" = Except.error (PyErr.nameError "Unsupported evaluator") ∧
     getExtractor "caffe" = Except.error (PyErr.nameError "Unsupported extractor")) ∧
    getEvaluator "tensorflow" = Except.ok EvaluatorChoice.tensorflowE ∧
    getEvaluator "pytorch" = Except.ok EvaluatorChoice.pytorchE ∧
    getExtractor "pytorch" = Except.ok ExtractorChoice.pytorchX ∧
    getExtractor "tensorflow" = Except.error (PyErr.valueError "Tensorflow is not supported") :=
  getEvaluatorDispatch "caffe" (by decide) (by decide)

/-- C7: _remove_model_from_cache never lets an exception escape, for any
backend tag, model name and cache state (missing directory, failing
removals, anything); and when no file of the cache directory matches the
normalized model name (in particular when the directory is missing or
empty) it completes as a no-op. -/
theorem cacheEvictionTotal (fw mn : String) (fs : CacheFS) :
    (removeModelFromCache fw mn fs).2 = none ∧
    (noMatchingFile mn fs → removeModelFromCache fw mn fs = (fs, none)) := by
  obtain ⟨c, fr⟩ := fs
  refine ⟨rfl, ?_⟩
  intro h
  cases c with
  | none =>
    by_cases hf : fw = "pytorch" <;> simp [removeModelFromCache, removeBody, hf]
  | some files =>
    simp only [noMatchingFile, Option.getD] at h
    by_cases hf : fw = "pytorch"
    · simp [removeModelFromCache, removeBody, hf, evictLoop_no_match mn fr files files h]
    · simp [removeModelFromCache, removeBody, hf]

/-- C7 witness: concrete no-op on a missing cache directory. -/
theorem cacheEvictionTotal_witness :
    (removeModelFromCache "pytorch" "resnet" fsEmpty).2 = none ∧
    removeModelFromCache "pytorch" "resnet" fsEmpty = (fsEmpty, none) :=
  ⟨(cacheEvictionTotal "pytorch" "resnet" fsEmpty).1,
   (cacheEvictionTotal "pytorch" "resnet" fsEmpty).2 (by decide)⟩

/-- C8: when eviction runs for a pytorch-backend model on a cache directory
with distinct file names whose matching files are all removable, it deletes
exactly the files whose normalized name starts with the normalized model
name (keeping every other file, in order); for any other backend tag it
deletes nothing. -/
theorem cacheEvictionExact (mn : String) (fs : CacheFS) (files : List String)
    (hc : fs.cache = some files) (hnd : files.Nodup)
    (hfr : ∀ f ∈ files, nameMatches mn f = true → f ∉ fs.failRemove) :
    removeModelFromCache "pytorch" mn fs
      = ({ fs with cache := some (files.filter (fun f => ! nameMatches mn f)) }, none) ∧
    ∀ fw : String, fw ≠ "pytorch" → removeModelFromCache fw mn fs = (fs, none) := by
  obtain ⟨c, fr⟩ := fs
  simp only at hc hfr
  subst hc
  constructor
  · simp [removeModelFromCache, removeBody, evictLoop_filter mn fr files hnd hfr]
  · intro fw hfw
    simp [removeModelFromCache, removeBody, hfw]

/-- C8 witness: a concrete pytorch eviction deletes the matching file and
keeps the other; a tensorflow eviction deletes nothing. -/
theorem cacheEvictionExact_witness :
    removeModelFromCache "pytorch" "ResNet50" fs1
      = ({ fs1 with cache := some (["resnet50_a.pth", "vgg-16.pth"].filter
          (fun f => ! nameMatches "ResNet50" f)) }, none) ∧
    removeModelFromCache "tensorflow" "ResNet50" fs1 = (fs1, none) :=
  ⟨(cacheEvictionExact "ResNet50" fs1 ["resnet50_a.pth", "vgg-16.pth"]
      rfl (by decide) (by decide)).1,
   (cacheEvictionExact "ResNet50" fs1 ["resnet50_a.pth", "vgg-16.pth"]
      rfl (by decide) (by decide)).2 "tensorflow" (by decide)⟩

/-- C2: every metric accumulator of a dataset is reset to its zero state
(empty update history) before a model's evaluation pass iterates batches,
in both backend evaluators, so the results of evaluating a model do not
depend on any metric state left behind by a previously evaluated model. -/
theorem metricsResetNoLeak :
    (∀ m : Metric, (Metric.reset m).updates = []) ∧
    (∀ (mn : String) (model : Model) (ds : Dataset) (opts : Options)
        (stale : Metric → List UpdRec),
      pytorchEvaluator mn model
          { ds with metrics := ds.metrics.map (fun mt => { mt with updates := stale mt }) } opts
        = pytorchEvaluator mn model ds opts) ∧
    (∀ (mn : String) (model : Model) (ds : Dataset) (opts : Options)
        (stale : Metric → List UpdRec),
      tensorflowEvaluator mn model
          { ds with metrics := ds.metrics.map (fun mt => { mt with updates := stale mt }) } opts
        = tensorflowEvaluator mn model ds opts) := by
  refine ⟨fun m => rfl, ?_, ?_⟩ <;> intro mn model ds opts stale <;>
    simp [pytorchEvaluator, tensorflowEvaluator, map_reset_overwrite]

/-- C3: with the print_predictions option present, each backend evaluator
completes without error and leaves every metric accumulator of the dataset
with exactly one update per batch produced by the dataset's loader. -/
theorem metricUpdatesPerBatch (mn : String) (model : Model) (ds : Dataset)
    (opts : Options) (pp : Bool)
    (h : List.lookup "print_predictions" opts = some pp) :
    ((pytorchEvaluator mn model ds opts).2.2 = none ∧
      (pytorchEvaluator mn model ds opts).1.metrics.map (fun mt => mt.updates.length)
        = List.replicate ds.metrics.length ds.loader.batches.length) ∧
    ((tensorflowEvaluator mn model ds opts).2.2 = none ∧
      (tensorflowEvaluator mn model ds opts).1.metrics.map (fun mt => mt.updates.length)
        = List.replicate ds.metrics.length ds.loader.batches.length) := by
  obtain ⟨hp1, hp2⟩ := evalLoopPy_ok mn model ds.decisionMapping ds.name opts pp h
      ds.loader.batches (ds.metrics.map Metric.reset)
  obtain ⟨ht1, ht2⟩ := evalLoopTf_ok mn model ds.decisionMapping ds.name opts pp h
      ds.loader.batches (ds.metrics.map Metric.reset)
  refine ⟨⟨hp2, ?_⟩, ht2, ?_⟩
  · have e : (pytorchEvaluator mn model ds opts).1.metrics
        = (evalLoopPy mn model ds.decisionMapping ds.name opts
            ds.loader.batches (ds.metrics.map Metric.reset)).1 := rfl
    rw [e, hp1, List.map_map, List.map_map]
    refine map_eq_replicate_of _ _ _ ?_
    intro mt
    simp [Metric.reset, Function.comp]
  · have e : (tensorflowEvaluator mn model ds opts).1.metrics
        = (evalLoopTf mn model ds.decisionMapping ds.name opts
            ds.loader.batches (ds.metrics.map Metric.reset)).1 := rfl
    rw [e, ht1, List.map_map, List.map_map]
    refine map_eq_replicate_of _ _ _ ?_
    intro mt
    simp [Metric.reset, Function.comp]

/-- C3 witness: one model, one dataset with a single batch and a single
metric, print_predictions set to false. -/
theorem metricUpdatesPerBatch_witness :
    (((pytorchEvaluator "m1" mdl0 ds0 opts0).2.2 = none ∧
      (pytorchEvaluator "m1" mdl0 ds0 opts0).1.metrics.map (fun mt => mt.updates.length)
        = List.replicate ds0.metrics.length ds0.loader.batches.length) ∧
     ((tensorflowEvaluator "m1" mdl0 ds0 opts0).2.2 = none ∧
      (tensorflowEvaluator "m1" mdl0 ds0 opts0).1.metrics.map (fun mt => mt.updates.length)
        = List.replicate ds0.metrics.length ds0.loader.batches.length)) :=
  metricUpdatesPerBatch "m1" mdl0 ds0 opts0 false rfl

/-- C10: when the options mapping lacks the print_predictions key, each
backend evaluator fails with a KeyError as soon as it reaches the check at
the end of its first batch, and a run of the orchestrator with at least one
recognized model and one dataset fails with the same KeyError (whether the
dataset has batches or not), so the option is effectively required. -/
theorem printPredictionsRequired (opts : Options)
    (h : List.lookup "print_predictions" opts = none) :
    (∀ (mn : String) (model : Model) (ds : Dataset) (b : Batch) (rest : List Batch),
        ds.loader.batches = b :: rest →
        (pytorchEvaluator mn model ds opts).2.2 = some (PyErr.keyError "print_predictions")) ∧
    (∀ (mn : String) (model : Model) (ds : Dataset) (b : Batch) (rest : List Batch),
        ds.loader.batches = b :: rest →
        (tensorflowEvaluator mn model ds opts).2.2 = some (PyErr.keyError "print_predictions")) ∧
    (∀ (lm : String → Model × String) (ld : String → Dataset) (mname : String)
        (mrest : List String) (dname : String) (drest : List String) (model : Model),
        lm mname = (model, "pytorch") →
        (evaluatorCall lm ld (mname :: mrest) (dname :: drest) opts).2
          = some (PyErr.keyError "print_predictions")) := by
  refine ⟨?_, ?_, ?_⟩
  · intro mn model ds b rest hb
    simp [pytorchEvaluator, evalLoopPy, evalStepPy, hb, h]
  · intro mn model ds b rest hb
    simp [tensorflowEvaluator, evalLoopTf, evalStepTf, hb, h]
  · intro lm ld mname mrest dname drest model hlm
    cases hbt : (ld dname).loader.batches with
    | nil =>
      simp [evaluatorCall, evalModelsLoop, evalModelStep, runDatasetsEval,
            pytorchEvaluator, evalLoopPy, hlm, h, hbt, getEvaluator]
    | cons b bs =>
      simp [evaluatorCall, evalModelsLoop, evalModelStep, runDatasetsEval,
            pytorchEvaluator, evalLoopPy, evalStepPy, hlm, h, hbt, getEvaluator]

/-- C10 witness: empty options mapping with a concrete model and dataset. -/
theorem printPredictionsRequired_witness :
    (pytorchEvaluator "m1" mdl0 ds0 []).2.2 = some (PyErr.keyError "print_predictions") ∧
    (tensorflowEvaluator "m1" mdl0 ds0 []).2.2 = some (PyErr.keyError "print_predictions") ∧
    (evaluatorCall lmPy ld0 ["m1"] ["d1"] []).2 = some (PyErr.keyError "print_predictions") :=
  ⟨(printPredictionsRequired [] rfl).1 "m1" mdl0 ds0 batch0 [] rfl,
   (printPredictionsRequired [] rfl).2.1 "m1" mdl0 ds0 batch0 [] rfl,
   (printPredictionsRequired [] rfl).2.2 lmPy ld0 "m1" [] "d1" [] mdl0 rfl⟩

/-- C9: when a tensorflow-backend model is processed by the evaluation
orchestrator, the shared dataset list is deep-copied before the loaders are
wrapped, so the shared datasets (and their loaders) after that model's step
are exactly what they were before, and the step ran the evaluator on
wrapper-loaders built from the originals. -/
theorem tensorflowDeepCopyIsolation (lm : String → Model × String) (opts : Options)
    (total idx : Nat) (mname : String) (st : RunState) (model : Model)
    (h : lm mname = (model, "tensorflow")) :
    (evalModelStep lm opts total idx mname st).1.datasets = st.datasets ∧
    (toTensorflow st.datasets).map Dataset.loader
      = st.datasets.map (fun ds => Loader.toTF ds.loader) := by
  constructor
  · cases hr : (runDatasetsEval mname model EvaluatorChoice.tensorflowE opts
        (toTensorflow st.datasets)).2.2.2 with
    | some e => simp [evalModelStep, h, getEvaluator, hr]
    | none =>
      by_cases h3 : MAX_NUM_MODELS_IN_CACHE ≤ total <;>
        simp [evalModelStep, h, getEvaluator, hr, h3]
  · show (List.map (fun ds => { ds with loader := Loader.toTF ds.loader }) st.datasets).map
        Dataset.loader = _
    rw [List.map_map]
    rfl

/-- C9 witness: a concrete state with one dataset is untouched by a
tensorflow model step, and its wrapped copy carries the adapted loader. -/
theorem tensorflowDeepCopyIsolation_witness :
    (evalModelStep lmTf opts0 3 0 "m1" stA).1.datasets = stA.datasets ∧
    (toTensorflow stA.datasets).map Dataset.loader
      = stA.datasets.map (fun ds => Loader.toTF ds.loader) :=
  tensorflowDeepCopyIsolation lmTf opts0 3 0 "m1" stA mdl0 rfl

/-- C5: in extraction mode, a model whose backend tag is "tensorflow" makes
the model step fail immediately with the ValueError raised by
_get_extractor, leaving the state untouched; when such a model is the first
of the run, the whole call fails with that error while the run state is
still exactly the freshly initialised one (no batch of any dataset was
processed). -/
theorem extractorTensorflowFails (lm : String → Model × String) (ld : String → Dataset)
    (opts : Options) (total idx : Nat) (mname : String) (st : RunState)
    (model : Model) (rest : List String) (datasetNames : List String)
    (h : lm mname = (model, "tensorflow")) :
    extractModelStep lm opts total idx mname st
      = (st, some (PyErr.valueError "Tensorflow is not supported")) ∧
    extractorCall lm ld (mname :: rest) datasetNames opts
      = ({ datasets := datasetNames.map ld, batchCsv := [], perfCsv := [],
           evictions := [] }, some (PyErr.valueError "Tensorflow is not supported")) := by
  constructor
  · simp [extractModelStep, h, getExtractor]
  · have hstep : extractModelStep lm opts (rest.length + 1) 0 mname
        { datasets := datasetNames.map ld, batchCsv := [], perfCsv := [], evictions := [] }
        = ({ datasets := datasetNames.map ld, batchCsv := [], perfCsv := [],
             evictions := [] }, some (PyErr.valueError "Tensorflow is not supported")) := by
      simp [extractModelStep, h, getExtractor]
    simp [extractorCall, List.enum, List.enumFrom, extractModelsLoop, hstep]

/-- C5 witness: a concrete extraction run whose only model is tensorflow. -/
theorem extractorTensorflowFails_witness :
    extractModelStep lmTf opts0 1 0 "m1" stA
      = (stA, some (PyErr.valueError "Tensorflow is not supported")) ∧
    extractorCall lmTf ld0 ["m1"] ["d1"] opts0
      = ({ datasets := (["d1"] : List String).map ld0, batchCsv := [], perfCsv := [],
           evictions := [] }, some (PyErr.valueError "Tensorflow is not supported")) :=
  extractorTensorflowFails lmTf ld0 opts0 1 0 "m1" stA mdl0 [] ["d1"] rfl

theorem evalModelStep_evictions (lm : String → Model × String) (opts : Options)
    (total idx : Nat) (mname : String) (st : RunState)
    (h : (evalModelStep lm opts total idx mname st).2 = none) :
    (evalModelStep lm opts total idx mname st).1.evictions
      = st.evictions ++ (if MAX_NUM_MODELS_IN_CACHE ≤ total then [(idx, mname)] else []) := by
  cases hge : getEvaluator (lm mname).2 with
  | error e => exfalso; simp [evalModelStep, hge] at h
  | ok choice =>
    cases hr : (runDatasetsEval mname (lm mname).1 choice opts
        (if (lm mname).2 = "tensorflow" then toTensorflow st.datasets
         else st.datasets)).2.2.2 with
    | some e => exfalso; simp [evalModelStep, hge, hr] at h
    | none =>
      by_cases h3 : MAX_NUM_MODELS_IN_CACHE ≤ total <;>
        simp [evalModelStep, hge, hr, h3]

theorem evalModelsLoop_evictions (lm : String → Model × String) (opts : Options)
    (total : Nat) :
    ∀ (pending : List (Nat × String)) (st : RunState),
      (evalModelsLoop lm opts total pending st).2 = none →
      (evalModelsLoop lm opts total pending st).1.evictions
        = st.evictions ++ (if MAX_NUM_MODELS_IN_CACHE ≤ total then pending else []) := by
  intro pending
  induction pending with
  | nil => intro st _; simp [evalModelsLoop]
  | cons p rest ih =>
    obtain ⟨idx, mname⟩ := p
    intro st h
    cases hr : (evalModelStep lm opts total idx mname st).2 with
    | some e => exfalso; simp [evalModelsLoop, hr] at h
    | none =>
      have hloop : evalModelsLoop lm opts total ((idx, mname) :: rest) st
          = evalModelsLoop lm opts total rest (evalModelStep lm opts total idx mname st).1 := by
        simp [evalModelsLoop, hr]
      rw [hloop] at h ⊢
      rw [ih _ h, evalModelStep_evictions lm opts total idx mname st hr]
      by_cases h3 : MAX_NUM_MODELS_IN_CACHE ≤ total <;> simp [h3]

theorem extractModelStep_evictions (lm : String → Model × String) (opts : Options)
    (total idx : Nat) (mname : String) (st : RunState)
    (h : (extractModelStep lm opts total idx mname st).2 = none) :
    (extractModelStep lm opts total idx mname st).1.evictions
      = st.evictions ++ (if MAX_NUM_MODELS_IN_CACHE ≤ total then [(idx, mname)] else []) := by
  cases hge : getExtractor (lm mname).2 with
  | error e => exfalso; simp [extractModelStep, hge] at h
  | ok choice =>
    by_cases htf : (lm mname).2 = "tensorflow"
    · exfalso; rw [htf] at hge; simp [getExtractor] at hge
    · cases hr : (runDatasetsExtract mname (lm mname).1 opts st.datasets).2.2 with
      | some e => exfalso; simp [extractModelStep, hge, htf, hr] at h
      | none =>
        by_cases h3 : MAX_NUM_MODELS_IN_CACHE ≤ total <;>
          simp [extractModelStep, hge, htf, hr, h3]

theorem extractModelsLoop_evictions (lm : String → Model × String) (opts : Options)
    (total : Nat) :
    ∀ (pending : List (Nat × String)) (st : RunState),
      (extractModelsLoop lm opts total pending st).2 = none →
      (extractModelsLoop lm opts total pending st).1.evictions
        = st.evictions ++ (if MAX_NUM_MODELS_IN_CACHE ≤ total then pending else []) := by
  intro pending
  induction pending with
  | nil => intro st _; simp [extractModelsLoop]
  | cons p rest ih =>
    obtain ⟨idx, mname⟩ := p
    intro st h
    cases hr : (extractModelStep lm opts total idx mname st).2 with
    | some e => exfalso; simp [extractModelsLoop, hr] at h
    | none =>
      have hloop : extractModelsLoop lm opts total ((idx, mname) :: rest) st
          = extractModelsLoop lm opts total rest
              (extractModelStep lm opts total idx mname st).1 := by
        simp [extractModelsLoop, hr]
      rw [hloop] at h ⊢
      rw [ih _ h, extractModelStep_evictions lm opts total idx mname st hr]
      by_cases h3 : MAX_NUM_MODELS_IN_CACHE ≤ total <;> simp [h3]

/-- C1 counterexample: in a run of exactly three pytorch models, an
eviction attempt is already made after the FIRST model finishes, when only
one model has been evaluated so far (1 < 3): the source compares the total
len(models) with the threshold, not the number of models evaluated so far,
so the claim "eviction never triggers when the number of models evaluated
so far is below 3" is false for this run. -/
theorem evictionBeforeThreeEvaluated :
    ¬ (∀ e ∈ run3.1.evictions, MAX_NUM_MODELS_IN_CACHE ≤ e.1 + 1) := by decide

/-- C1 (amended): eviction attempts depend only on the TOTAL number of
models in the run: in an error-free run whose total is at least the
threshold (3), an eviction attempt is made after every model — including
the first ones, before 3 models have been evaluated — and when the total is
below the threshold no eviction is ever attempted.  This holds for both the
evaluation and the extraction orchestrators. -/
theorem evictionThresholdTotal (lm : String → Model × String) (ld : String → Dataset)
    (models datasetNames : List String) (opts : Options) :
    ((evaluatorCall lm ld models datasetNames opts).2 = none →
      (evaluatorCall lm ld models datasetNames opts).1.evictions
        = if MAX_NUM_MODELS_IN_CACHE ≤ models.length then models.enum else []) ∧
    ((extractorCall lm ld models datasetNames opts).2 = none →
      (extractorCall lm ld models datasetNames opts).1.evictions
        = if MAX_NUM_MODELS_IN_CACHE ≤ models.length then models.enum else []) := by
  constructor
  · intro h
    have := evalModelsLoop_evictions lm opts models.length models.enum
      { datasets := datasetNames.map ld, batchCsv := [], perfCsv := [], evictions := [] } h
    simpa [evaluatorCall] using this
  · intro h
    have := extractModelsLoop_evictions lm opts models.length models.enum
      { datasets := datasetNames.map ld, batchCsv := [], perfCsv := [], evictions := [] } h
    simpa [extractorCall] using this

/-- C1 witness (for the amended claim): the three-model run attempts one
eviction per model, the first of them after a single model was evaluated. -/
theorem evictionThresholdTotal_witness :
    (evaluatorCall lmPy ld0 ["m1", "m2", "m3"] ["d1"] opts0).1.evictions
      = if MAX_NUM_MODELS_IN_CACHE ≤ (["m1", "m2", "m3"] : List String).length
        then (["m1", "m2", "m3"] : List String).enum else [] :=
  (evictionThresholdTotal lmPy ld0 ["m1", "m2", "m3"] ["d1"] opts0).1 (by decide)

theorem map_const_list {α β : Type} (l : List α) (x : β) :
    l.map (fun _ => x) = List.replicate l.length x := by
  induction l with
  | nil => rfl
  | cons a rest ih => simp [ih, List.replicate_succ]

theorem extractLayersLoop_eq (model : Model) (dm : DecisionMapping) (b : Batch) :
    ∀ (feats : List Nat) (layer : Nat) (metrics : List Metric),
      extractLayersLoop model dm b feats layer metrics
        = metrics.map (fun mt =>
            { mt with updates := mt.updates ++ extractRecs model dm b feats layer }) := by
  intro feats
  induction feats with
  | nil =>
    intro layer metrics
    simp only [extractLayersLoop, extractRecs]
    exact (map_extend_nil metrics).symm
  | cons f rest ih =>
    intro layer metrics
    have hfun : ((fun mt : Metric =>
            { mt with updates := mt.updates ++ extractRecs model dm b rest (layer + 1) }) ∘
          (fun mt : Metric => mt.update (extractRecord model dm b f layer)))
        = fun mt : Metric =>
            { mt with updates := mt.updates ++ extractRecs model dm b (f :: rest) layer } := by
      funext mt
      simp [Metric.update, Function.comp, extractRecs, List.append_assoc]
    simp only [extractLayersLoop]
    rw [ih, List.map_map, hfun]

theorem extractRecs_layerOf (model : Model) (dm : DecisionMapping) (b : Batch) :
    ∀ (feats : List Nat) (layer : Nat),
      (extractRecs model dm b feats layer).map UpdRec.layerOf
        = List.range' layer feats.length := by
  intro feats
  induction feats with
  | nil => intro layer; rfl
  | cons f rest ih =>
    intro layer
    simp [extractRecs, extractRecord, UpdRec.layerOf, ih, List.range']

theorem extractBatchLoop_eq (model : Model) (dm : DecisionMapping) :
    ∀ (batches : List Batch) (metrics : List Metric),
      extractBatchLoop model dm batches metrics
        = metrics.map (fun mt =>
            { mt with updates := mt.updates ++
              (batches.map (fun b =>
                extractRecs model dm b (model.forwardIntermediates b.images).2 0)).flatten }) := by
  intro batches
  induction batches with
  | nil =>
    intro metrics
    simp only [extractBatchLoop, List.map_nil, List.flatten]
    exact (map_extend_nil metrics).symm
  | cons b rest ih =>
    intro metrics
    have hfun : ((fun mt : Metric =>
            { mt with updates := mt.updates ++
              (rest.map (fun b2 =>
                extractRecs model dm b2 (model.forwardIntermediates b2.images).2 0)).flatten }) ∘
          (fun mt : Metric =>
            { mt with updates := mt.updates ++
              extractRecs model dm b (model.forwardIntermediates b.images).2 0 }))
        = fun mt : Metric =>
            { mt with updates := mt.updates ++
              ((b :: rest).map (fun b2 =>
                extractRecs model dm b2 (model.forwardIntermediates b2.images).2 0)).flatten } := by
      funext mt
      simp [Function.comp, List.flatten_cons, List.append_assoc]
    simp only [extractBatchLoop]
    rw [extractLayersLoop_eq, ih, List.map_map, hfun]

/-- C4: in extraction mode the dataset's metric list is replaced by exactly
the fixed trio (reciprocal-rank, probability, entropy), whatever the
dataset originally specified; and when the model reports N intermediate
layers for every input, each of the three accumulators receives exactly N
updates per batch, carrying the layer indices 0..N-1 in order, for a total
of (number of batches) * N updates. -/
theorem extractorFixedTrioPerLayer (mn : String) (model : Model) (ds : Dataset)
    (opts : Options) (N : Nat)
    (hN : ∀ x : Nat, ((model.forwardIntermediates x).2).length = N) :
    (pytorchExtractor mn model ds opts).2 = none ∧
    (pytorchExtractor mn model ds opts).1.metrics.map Metric.kind
      = [MetricKind.reciprocalRank, MetricKind.probability, MetricKind.entropy] ∧
    (pytorchExtractor mn model ds opts).1.metrics.map (fun mt => mt.updates.map UpdRec.layerOf)
      = List.replicate 3 ((List.replicate ds.loader.batches.length (List.range N)).flatten) ∧
    (pytorchExtractor mn model ds opts).1.metrics.map (fun mt => mt.updates.length)
      = List.replicate 3 (ds.loader.batches.length * N) := by
  have hrecLen : ∀ b : Batch,
      (extractRecs model { ds.decisionMapping with returnRawProbs := true } b
        (model.forwardIntermediates b.images).2 0).length = N := by
    intro b
    have h2 := extractRecs_layerOf model { ds.decisionMapping with returnRawProbs := true } b
      (model.forwardIntermediates b.images).2 0
    have h3 := congrArg List.length h2
    simpa [List.length_range', hN] using h3
  have hX : ((ds.loader.batches.map (fun b =>
        extractRecs model { ds.decisionMapping with returnRawProbs := true } b
          (model.forwardIntermediates b.images).2 0)).flatten).map UpdRec.layerOf
      = (List.replicate ds.loader.batches.length (List.range N)).flatten := by
    rw [List.map_flatten, List.map_map]
    congr 1
    have hfun : ((List.map UpdRec.layerOf) ∘ fun b : Batch =>
          extractRecs model { ds.decisionMapping with returnRawProbs := true } b
            (model.forwardIntermediates b.images).2 0)
        = fun _ : Batch => List.range N := by
      funext b
      rw [Function.comp_apply, extractRecs_layerOf, hN, ← List.range_eq_range']
    rw [hfun, map_const_list]
  have hLen : ((ds.loader.batches.map (fun b =>
        extractRecs model { ds.decisionMapping with returnRawProbs := true } b
          (model.forwardIntermediates b.images).2 0)).flatten).length
      = ds.loader.batches.length * N := by
    rw [List.length_flatten, List.map_map]
    have hfun : (List.length ∘ fun b : Batch =>
          extractRecs model { ds.decisionMapping with returnRawProbs := true } b
            (model.forwardIntermediates b.images).2 0)
        = fun _ : Batch => N := by
      funext b
      rw [Function.comp_apply, hrecLen]
    rw [hfun, map_const_list, List.sum_replicate, smul_eq_mul]
  have e : (pytorchExtractor mn model ds opts).1.metrics
      = extractBatchLoop model { ds.decisionMapping with returnRawProbs := true }
          ds.loader.batches
          [{ kind := .reciprocalRank, updates := [] },
           { kind := .probability, updates := [] },
           { kind := .entropy, updates := [] }] := rfl
  refine ⟨rfl, ?_, ?_, ?_⟩ <;>
    rw [e, extractBatchLoop_eq] <;>
    simp [hX, hLen, List.replicate_succ]

/-- C4 witness: a concrete model reporting two intermediate layers on every
input, one batch: each of the three metrics gets updates with layers 0, 1. -/
theorem extractorFixedTrioPerLayer_witness :
    (pytorchExtractor "m1" mdl0 ds0 opts0).2 = none ∧
    (pytorchExtractor "m1" mdl0 ds0 opts0).1.metrics.map Metric.kind
      = [MetricKind.reciprocalRank, MetricKind.probability, MetricKind.entropy] ∧
    (pytorchExtractor "m1" mdl0 ds0 opts0).1.metrics.map (fun mt => mt.updates.map UpdRec.layerOf)
      = List.replicate 3 ((List.replicate ds0.loader.batches.length (List.range 2)).flatten) ∧
    (pytorchExtractor "m1" mdl0 ds0 opts0).1.metrics.map (fun mt => mt.updates.length)
      = List.replicate 3 (ds0.loader.batches.length * 2) :=
  extractorFixedTrioPerLayer "m1" mdl0 ds0 opts0 2 (fun _ => rfl)

end ModelVsHuman
